import Mathlib

/-!
# Verification of the `ovr_overlay` binding layer

A shallow embedding, in Lean 4, of the safety-oriented Rust binding layer over
the OpenVR C-style runtime API, together with proofs about the embedded
operations.

Conventions:
* Foreign status codes are modelled as `Nat`.  Every error domain of the
  foreign runtime uses `0` as its success sentinel (`VRInitError_None`,
  `VROverlayError_None`, `TrackedProp_Success`, `VRInputError_None`, ...).
* The foreign runtime itself is modelled as a structure of pure functions
  (a "stub"): each wrapped entry point is a field, and stateful Rust code
  becomes explicit state passing over such a stub.
* A Rust `panic!`/`expect` is modelled by an explicit `panic` constructor of
  the operation's outcome type.
* `f32` arguments that only ever flow through range comparisons are modelled
  as `ℚ`.
* Byte buffers are modelled as `List Nat`, with `0` the nul terminator byte.
-/

deriving instance DecidableEq for Except

namespace OvrOverlay

/-! ## Foreign status-code sentinels

The `sys` crate (autocxx-generated from the OpenVR headers) is external to the
wrapped sources; only the sentinel and error codes actually used by the layer
are needed here. -/

/-- Modelled from the spec: success sentinel of the foreign initialization
error domain (`sys::EVRInitError::VRInitError_None`); "code 0 ⇒ success". -/
def VRInitError_None : Nat := 0

/-- Modelled from the spec: success sentinel of the foreign overlay error
domain (`sys::EVROverlayError::VROverlayError_None`); "code 0 ⇒ success". -/
def VROverlayError_None : Nat := 0

/-- Modelled from the spec: the foreign overlay error domain's
`VROverlayError_RequestFailed` code.  Any fixed non-success (nonzero) code is
faithful; the foreign header assigns 23. -/
def VROverlayError_RequestFailed : Nat := 23

/-- Modelled from the spec: success sentinel of the foreign tracked-property
error domain (`sys::ETrackedPropertyError::TrackedProp_Success`). -/
def TrackedProp_Success : Nat := 0

/-- Modelled from the spec: the foreign tracked-property error domain's
`TrackedProp_BufferTooSmall` code.  Any fixed nonzero code is faithful; the
foreign header assigns 3. -/
def TrackedProp_BufferTooSmall : Nat := 3

/-- Modelled from the spec: success sentinel of the foreign input error
domain (`sys::EVRInputError::VRInputError_None`). -/
def VRInputError_None : Nat := 0

/-- Modelled from the spec: the foreign input error domain's
`VRInputError_InvalidParam` code.  Any fixed nonzero code is faithful; it is
the fifth code listed in the layer's own description table (`errors.rs`),
matching the foreign header's value 4. -/
def VRInputError_InvalidParam : Nat := 4

/-- Modelled from the spec: success sentinel of the foreign application error
domain (`sys::EVRApplicationError::VRApplicationError_None`). -/
def VRApplicationError_None : Nat := 0

/-- Modelled from the spec: the foreign application error domain's
`VRApplicationError_InvalidParameter` code.  Any fixed nonzero code is
faithful; the foreign header assigns 203. -/
def VRApplicationError_InvalidParameter : Nat := 203

/-- Modelled from the spec: the foreign runtime's reserved "invalid" tracked
device index sentinel (`sys::k_unTrackedDeviceIndexInvalid`).  The foreign
type is `uint32_t` and the sentinel is its maximum value. -/
def k_unTrackedDeviceIndexInvalid : Nat := 4294967295

/-! ## Error taxonomy adapters (`errors.rs`)

Each adapter wraps one foreign error domain: `new` converts a status code to
`Ok (())` exactly on the domain's success sentinel and otherwise wraps the
code; `inner` recovers the wrapped code. -/

/-- `EVRInitError` (errors.rs): newtype over a foreign init status code. -/
structure EVRInitError where
  code : Nat
  deriving DecidableEq, Repr

/-- `EVRInitError::new` (errors.rs lines 10–16). -/
def EVRInitError.new (err : Nat) : Except EVRInitError Unit :=
  if err = VRInitError_None then .ok () else .error ⟨err⟩

/-- `EVRInitError::inner` (errors.rs lines 23–25). -/
def EVRInitError.inner (e : EVRInitError) : Nat := e.code

/-- `EVROverlayError` (errors.rs): newtype over a foreign overlay status code. -/
structure EVROverlayError where
  code : Nat
  deriving DecidableEq, Repr

/-- `EVROverlayError::new` (errors.rs lines 38–44). -/
def EVROverlayError.new (err : Nat) : Except EVROverlayError Unit :=
  if err = VROverlayError_None then .ok () else .error ⟨err⟩

/-- `EVROverlayError::inner` (errors.rs lines 50–52). -/
def EVROverlayError.inner (e : EVROverlayError) : Nat := e.code

/-- `ETrackedPropertyError` (errors.rs): newtype over a foreign
tracked-property status code. -/
structure ETrackedPropertyError where
  code : Nat
  deriving DecidableEq, Repr

/-- `ETrackedPropertyError::new` (errors.rs lines 69–75). -/
def ETrackedPropertyError.new (err : Nat) : Except ETrackedPropertyError Unit :=
  if err = TrackedProp_Success then .ok () else .error ⟨err⟩

/-- `ETrackedPropertyError::inner` (errors.rs lines 81–83). -/
def ETrackedPropertyError.inner (e : ETrackedPropertyError) : Nat := e.code

/-- `EVRInputError` (errors.rs): newtype over a foreign input status code. -/
structure EVRInputError where
  code : Nat
  deriving DecidableEq, Repr

/-- `EVRInputError::new` (errors.rs lines 101–107). -/
def EVRInputError.new (err : Nat) : Except EVRInputError Unit :=
  if err = VRInputError_None then .ok () else .error ⟨err⟩

/-- `EVRInputError::inner` (errors.rs lines 136–138). -/
def EVRInputError.inner (e : EVRInputError) : Nat := e.code

/-- Modelled from the spec: `EVRApplicationError` — the application-domain
error adapter used by `applications.rs` but absent from the provided
`errors.rs`.  Per §4.1, "one such adapter exists per foreign error domain
(..., application errors)": a newtype over the foreign code. -/
structure EVRApplicationError where
  code : Nat
  deriving DecidableEq, Repr

/-- Modelled from the spec: `EVRApplicationError::new` — converts a foreign
status code into `Ok(())` when the code equals the domain's success sentinel,
else `Err(code-wrapped-in-typed-error)` (§4.1). -/
def EVRApplicationError.new (err : Nat) : Except EVRApplicationError Unit :=
  if err = VRApplicationError_None then .ok () else .error ⟨err⟩

/-- Modelled from the spec: `EVRApplicationError::inner` — recovers the
wrapped foreign code, as the sibling adapters do. -/
def EVRApplicationError.inner (e : EVRApplicationError) : Nat := e.code

/-! ## Tracked device index (`lib.rs`) -/

/-- `TrackedDeviceIndex` (lib.rs lines 125–127): transparent wrapper over the
foreign numeric device index. -/
structure TrackedDeviceIndex where
  val : Nat
  deriving DecidableEq, Repr

/-- `TrackedDeviceIndex::new` (lib.rs lines 129–136): rejects exactly the
reserved invalid sentinel. -/
def TrackedDeviceIndex.new (index : Nat) : Except Unit TrackedDeviceIndex :=
  if index = k_unTrackedDeviceIndexInvalid then .error () else .ok ⟨index⟩

/-! ## Session initialization (`lib.rs`)

`Context::init` guards on the `INITIALIZED` mutex-protected flag.  Sequential
executions are modelled by threading the flag's value explicitly; the foreign
`VR_Init` outcome of the attempt is a parameter. -/

/-- `InitError` (errors.rs lines 150–156). -/
inductive InitError
  | alreadyInitialized
  | sys (e : EVRInitError)
  deriving DecidableEq, Repr

/-- `Context::init` (lib.rs lines 41–60), sequential execution: `initialized`
is the current contents of the `INITIALIZED` flag, `vrInitErr` the status code
the foreign `VR_Init` call would report.  Returns the call's result (a live
`Context` is a unit struct) and the flag's contents afterwards.  Note the
source reads the guard but never writes it. -/
def Context.init (vrInitErr : Nat) (initialized : Bool) :
    Except InitError Unit × Bool :=
  if initialized then (.error .alreadyInitialized, initialized)
  else
    match EVRInitError.new vrInitErr with
    | .error e => (.error (.sys e), initialized)
    | .ok _ => (.ok (), initialized)

/-! ## Text (CString) property retrieval (`system.rs`)

The foreign `GetStringTrackedDeviceProperty` is modelled as a pure function
of (device index, property code, buffer length) returning the reported
required length, the error code it sets, and the bytes it writes into the
caller's buffer.  The embedding records a trace of buffer allocations and
foreign calls. -/

/-- Foreign string accessor stub: `(index, prop, bufLen) ↦ (returned length,
error code set, bytes written into the buffer)`. -/
structure IVRSystemString where
  GetStringTrackedDeviceProperty : Nat → Nat → Nat → Nat × Nat × List Nat

/-- One step of the string-retrieval protocol, for the trace. -/
inductive StringFetchEvent
  | foreignCall (bufLen : Nat)
  | alloc (size : Nat)
  deriving DecidableEq, Repr

/-- Outcome of `<CString as TrackedDeviceProperty>::get`: success bytes, a
returned foreign error, or a Rust panic. -/
inductive CStringOutcome
  | ok (bytes : List Nat)
  | err (e : ETrackedPropertyError)
  | panic (msg : String)
  deriving DecidableEq, Repr

/-- Contents of a zero-initialized buffer of length `len` after the foreign
call writes `written` into it (`vec![0; len]`, then the call fills a prefix). -/
def writeBuffer (len : Nat) (written : List Nat) : List Nat :=
  written.take len ++ List.replicate (len - (written.take len).length) 0

/-- Success condition of Rust's `CString::from_vec_with_nul`, per its
documented contract: the byte sequence's first nul byte is its final byte
(errors are `NotNulTerminated` when no nul exists and `InteriorNul` when a
nul occurs before the final position). -/
def hasProperNulTerminator : List Nat → Bool
  | [] => false
  | [b] => decide (b = 0)
  | b :: c :: rest => decide (b ≠ 0) && hasProperNulTerminator (c :: rest)

/-- `CString::from_vec_with_nul` (Rust std), on byte lists. -/
def cstringFromVecWithNul (v : List Nat) : Option (List Nat) :=
  if hasProperNulTerminator v then some v else none

/-- `<CString as TrackedDeviceProperty>::get` (system.rs lines 76–105):
zero-length probe, error check, allocation of the reported length, second
call, error check, then `from_vec_with_nul(..).expect(..)`. -/
def cstringGet (sys : IVRSystemString) (index prop : Nat) :
    CStringOutcome × List StringFetchEvent :=
  let probe := sys.GetStringTrackedDeviceProperty index prop 0
  match ETrackedPropertyError.new probe.2.1 with
  | .error e => (.err e, [.foreignCall 0])
  | .ok _ =>
    let len := probe.1
    let second := sys.GetStringTrackedDeviceProperty index prop len
    let data := writeBuffer len second.2.2
    match ETrackedPropertyError.new second.2.1 with
    | .error e => (.err e, [.foreignCall 0, .alloc len, .foreignCall len])
    | .ok _ =>
      match cstringFromVecWithNul data with
      | some s => (.ok s, [.foreignCall 0, .alloc len, .foreignCall len])
      | none =>
        (.panic "missing nul byte from openvr!",
          [.foreignCall 0, .alloc len, .foreignCall len])

/-! ## Overlay operations (`overlay.rs`) -/

/-- Row-major 3x4 matrix (`pose.rs` lines 3–5), float entries modelled as ℚ. -/
structure Matrix3x4 where
  m : Fin 3 → Fin 4 → ℚ

/-- Foreign overlay setter stub for opacity/curvature: each setter maps
(overlay handle, value) to the status code it reports. -/
structure IVROverlayOps where
  SetOverlayAlpha : Nat → ℚ → Nat
  SetOverlayCurvature : Nat → ℚ → Nat

/-- Trace of foreign overlay setter invocations. -/
inductive OverlayCall
  | setOverlayAlpha (handle : Nat) (value : ℚ)
  | setOverlayCurvature (handle : Nat) (value : ℚ)
  deriving DecidableEq, Repr

/-- Outcome of an overlay setter: a Rust panic, or a returned result. -/
inductive OverlayOutcome
  | panic (msg : String)
  | result (r : Except EVROverlayError Unit)
  deriving DecidableEq, Repr

/-- `OverlayManager::set_opacity` (overlay.rs lines 97–107): range check on
`alpha` (panicking outside `[0,1]`) before the single foreign call. -/
def set_opacity (fo : IVROverlayOps) (overlay : Nat) (alpha : ℚ) :
    OverlayOutcome × List OverlayCall :=
  if ¬(0 ≤ alpha ∧ alpha ≤ 1) then
    (.panic "`alpha` must be in range [0,1]", [])
  else
    (.result (EVROverlayError.new (fo.SetOverlayAlpha overlay alpha)),
      [.setOverlayAlpha overlay alpha])

/-- `OverlayManager::set_curvature` (overlay.rs lines 64–78): the `[0,1]`
range check is commented out in the source (lines 69–71), so the foreign call
is made unconditionally. -/
def set_curvature (fo : IVROverlayOps) (overlay : Nat) (curvature : ℚ) :
    OverlayOutcome × List OverlayCall :=
  (.result (EVROverlayError.new (fo.SetOverlayCurvature overlay curvature)),
    [.setOverlayCurvature overlay curvature])

/-- Foreign transform getter stub: overlay handle ↦ (status code, device
index written, matrix written). -/
structure IVROverlayTransforms where
  GetOverlayTransformTrackedDeviceRelative : Nat → Nat × Nat × Matrix3x4

/-- Outcome of `get_transform_tracked_device_relative`: a Rust panic
(`unreachable!()`) or a returned result. -/
inductive TransformOutcome
  | panic (msg : String)
  | result (r : Except EVROverlayError TrackedDeviceIndex)
  deriving DecidableEq, Repr

/-- `OverlayManager::get_transform_tracked_device_relative` (overlay.rs lines
308–330): check the foreign status, then validate the returned index through
`TrackedDeviceIndex::new`, mapping the sentinel to `RequestFailed` via
`EVROverlayError::new(..).map(|_| unreachable!())`. -/
def get_transform_tracked_device_relative (fo : IVROverlayTransforms)
    (overlay : Nat) : TransformOutcome :=
  let r := fo.GetOverlayTransformTrackedDeviceRelative overlay
  match EVROverlayError.new r.1 with
  | .error e => .result (.error e)
  | .ok _ =>
    match TrackedDeviceIndex.new r.2.1 with
    | .ok idx => .result (.ok idx)
    | .error _ =>
      match EVROverlayError.new VROverlayError_RequestFailed with
      | .error e => .result (.error e)
      | .ok _ => .panic "internal error: entered unreachable code"

/-! ## Manifest-path marshalling (`input.rs`, `applications.rs`) -/

/-- `CString::new` (Rust std) on byte lists: fails exactly when the input
contains a nul byte. -/
def cstringNew (bytes : List Nat) : Option (List Nat) :=
  if bytes.contains 0 then none else some bytes

/-- Foreign input-manifest stub: path bytes ↦ status code. -/
structure IVRInputOps where
  SetActionManifestPath : List Nat → Nat

/-- Foreign applications-manifest stub: (path bytes, temporary) ↦ status. -/
structure IVRApplicationsOps where
  AddApplicationManifest : List Nat → Bool → Nat

/-- `InputManager::set_action_manifest_raw` (input.rs lines 100–103); the
trace records the paths passed to the foreign runtime. -/
def set_action_manifest_raw (fi : IVRInputOps) (path : List Nat) :
    Except EVRInputError Unit × List (List Nat) :=
  (EVRInputError.new (fi.SetActionManifestPath path), [path])

/-- `InputManager::set_action_manifest` (input.rs lines 91–98): convert the
path via `CString::new`, returning `EVRInputError::new(InvalidParam)` on
failure, else forward to the raw call. -/
def set_action_manifest (fi : IVRInputOps) (path : List Nat) :
    Except EVRInputError Unit × List (List Nat) :=
  match cstringNew path with
  | some s => set_action_manifest_raw fi s
  | none => (EVRInputError.new VRInputError_InvalidParam, [])

/-- `ApplicationsManager::add_application_manifest_raw` (applications.rs). -/
def add_application_manifest_raw (fa : IVRApplicationsOps) (path : List Nat)
    (temporary : Bool) : Except EVRApplicationError Unit × List (List Nat) :=
  (EVRApplicationError.new (fa.AddApplicationManifest path temporary), [path])

/-- `ApplicationsManager::add_application_manifest` (applications.rs lines
28–41): convert the path via `CString::new`, returning
`EVRApplicationError::new(InvalidParameter)` on failure, else forward. -/
def add_application_manifest (fa : IVRApplicationsOps) (path : List Nat)
    (temporary : Bool) : Except EVRApplicationError Unit × List (List Nat) :=
  match cstringNew path with
  | some s => add_application_manifest_raw fa s temporary
  | none => (EVRApplicationError.new VRApplicationError_InvalidParameter, [])

/-! ## Typed property identifiers (`system.rs`, module `props`)

The five closed identifier sets generated by the `props_enum!` macro
(system.rs lines 149–164, 171–344), one per value category. -/

namespace props

/-- `props::Bool` (system.rs lines 171–217). -/
inductive Bool
  | WillDriftInYaw
  | DeviceIsWireless
  | DeviceIsCharging
  | Firmware_UpdateAvailable
  | Firmware_ManualUpdate
  | BlockServerShutdown
  | CanUnifyCoordinateSystemWithHmd
  | ContainsProximitySensor
  | DeviceProvidesBatteryStatus
  | DeviceCanPowerOff
  | HasCamera
  | Firmware_ForceUpdateRequired
  | ViveSystemButtonFixRequired
  | NeverTracked
  | Identifiable
  | Firmware_RemindUpdate
  | ReportsTimeSinceVSync
  | IsOnDesktop
  | DisplaySuppressed
  | DisplayAllowNightMode
  | DriverDirectModeSendsVsyncEvents
  | DisplayDebugMode
  | DoNotApplyPrediction
  | DriverIsDrawingControllers
  | DriverRequestsApplicationPause
  | DriverRequestsReducedRendering
  | ConfigurationIncludesLighthouse20Features
  | DriverProvidedChaperoneVisibility
  | CameraSupportsCompatibilityModes
  | SupportsRoomViewDepthProjection
  | DisplaySupportsMultipleFramerates
  | DisplaySupportsRuntimeFramerateChange
  | DisplaySupportsAnalogGain
  | Hmd_SupportsHDCP14LegacyCompat
  | Hmd_SupportsMicMonitoring
  | Audio_SupportsDualSpeakerAndJackOutput
  | CanWirelessIdentify
  | HasDisplayComponent
  | HasControllerComponent
  | HasCameraComponent
  | HasDriverDirectModeComponent
  | HasVirtualDisplayComponent
  | HasSpatialAnchorsSupport
  deriving DecidableEq, Repr

/-- `props::Int32` (system.rs lines 219–256). -/
inductive Int32
  | DeviceClass
  | NumCameras
  | CameraFrameLayout
  | CameraStreamFormat
  | EstimatedDeviceFirstUseTime
  | DisplayMCType
  | EdidVendorID
  | EdidProductID
  | DisplayGCType
  | CameraCompatibilityMode
  | DisplayMCImageWidth
  | DisplayMCImageHeight
  | DisplayMCImageNumChannels
  | ExpectedTrackingReferenceCount
  | ExpectedControllerCount
  | DistortionMeshResolution
  | HmdTrackingStyle
  | DriverRequestedMuraCorrectionMode
  | DriverRequestedMuraFeather_InnerLeft
  | DriverRequestedMuraFeather_InnerRight
  | DriverRequestedMuraFeather_InnerTop
  | DriverRequestedMuraFeather_InnerBottom
  | DriverRequestedMuraFeather_OuterLeft
  | DriverRequestedMuraFeather_OuterRight
  | DriverRequestedMuraFeather_OuterTop
  | DriverRequestedMuraFeather_OuterBottom
  | Axis0Type
  | Axis1Type
  | Axis2Type
  | Axis3Type
  | Axis4Type
  | ControllerRoleHint
  | Nonce
  | ControllerHandSelectionPriority
  deriving DecidableEq, Repr

/-- `props::Uint64` (system.rs lines 258–284). -/
inductive Uint64
  | HardwareRevision
  | FirmwareVersion
  | FPGAVersion
  | VRCVersion
  | RadioVersion
  | DongleVersion
  | ParentDriver
  | BootloaderVersion
  | PeripheralApplicationVersion
  | CurrentUniverseId
  | PreviousUniverseId
  | DisplayFirmwareVersion
  | CameraFirmwareVersion
  | DisplayFPGAVersion
  | DisplayBootloaderVersion
  | DisplayHardwareVersion
  | AudioFirmwareVersion
  | GraphicsAdapterLuid
  | AudioBridgeFirmwareVersion
  | ImageBridgeFirmwareVersion
  | AdditionalRadioFeatures
  | SupportedButtons
  | OverrideContainer
  deriving DecidableEq, Repr

/-- `props::Matrix34` (system.rs lines 286–292). -/
inductive Matrix34
  | StatusDisplayTransform
  | CameraToHeadTransform
  | ImuToHeadTransform
  deriving DecidableEq, Repr

/-- `props::String` (system.rs lines 294–344). -/
inductive String
  | TrackingSystemName
  | ModelNumber
  | SerialNumber
  | RenderModelName
  | ManufacturerName
  | TrackingFirmwareVersion
  | HardwareRevision
  | AllWirelessDongleDescriptions
  | ConnectedWirelessDongle
  | Firmware_ManualUpdateURL
  | Firmware_ProgrammingTarget
  | DriverVersion
  | ResourceRoot
  | RegisteredDeviceType
  | InputProfilePath
  | AdditionalDeviceSettingsPath
  | AdditionalSystemReportData
  | CompositeFirmwareVersion
  | ManufacturerSerialNumber
  | ComputedSerialNumber
  | DisplayMCImageLeft
  | DisplayMCImageRight
  | DisplayGCImage
  | CameraFirmwareDescription
  | DriverProvidedChaperonePath
  | NamedIconPathControllerLeftDeviceOff
  | NamedIconPathControllerRightDeviceOff
  | NamedIconPathTrackingReferenceDeviceOff
  | ExpectedControllerType
  | HmdColumnCorrectionSettingPrefix
  | Audio_DefaultPlaybackDeviceId
  | Audio_DefaultRecordingDeviceId
  | AttachedDeviceId
  | ModeLabel
  | IconPathName
  | NamedIconPathDeviceOff
  | NamedIconPathDeviceSearching
  | NamedIconPathDeviceSearchingAlert
  | NamedIconPathDeviceReady
  | NamedIconPathDeviceReadyAlert
  | NamedIconPathDeviceNotReady
  | NamedIconPathDeviceStandby
  | NamedIconPathDeviceAlertLow
  | NamedIconPathDeviceStandbyAlert
  | UserConfigPath
  | InstallPath
  | ControllerType
  deriving DecidableEq, Repr

end props

/-- The five value categories of wrapped identifiers, plus the float category
(the layer wraps an `f32` accessor though it generates no float identifier
set). -/
inductive ValueCategory
  | bool
  | int32
  | uint64
  | matrix34
  | str
  | float
  deriving DecidableEq, Repr

/-- Modelled from the spec: the foreign `sys::ETrackedDeviceProperty`
identifier space.  Every identifier a typed set wraps is the same-named
foreign variant `Prop_<name>_<Category>`; identifiers outside the wrapped
sets (float and array properties, `Prop_ParentContainer`, vendor ranges) are
carried as raw numeric codes.  Distinct constructor applications denote
distinct foreign numeric codes. -/
inductive PropId
  | boolProp (v : props.Bool)
  | int32Prop (v : props.Int32)
  | uint64Prop (v : props.Uint64)
  | matrix34Prop (v : props.Matrix34)
  | stringProp (v : props.String)
  | raw (code : Int)
  deriving DecidableEq, Repr

/-- The foreign-specified value category of an identifier (spec §3: each
identifier belongs to exactly one category); statically unknown for raw
codes. -/
def PropId.category : PropId → Option ValueCategory
  | .boolProp _ => some .bool
  | .int32Prop _ => some .int32
  | .uint64Prop _ => some .uint64
  | .matrix34Prop _ => some .matrix34
  | .stringProp _ => some .str
  | .raw _ => none

/-- `From<props::Bool> for sys::ETrackedDeviceProperty` (system.rs lines
355–370): the discriminant of each variant is the same-named foreign
`Prop_<name>_Bool` code, and the conversion transmutes it. -/
def props.Bool.toSys (v : props.Bool) : PropId := .boolProp v

/-- `From<props::Int32> for sys::ETrackedDeviceProperty` (system.rs 371). -/
def props.Int32.toSys (v : props.Int32) : PropId := .int32Prop v

/-- `From<props::Uint64> for sys::ETrackedDeviceProperty` (system.rs 372). -/
def props.Uint64.toSys (v : props.Uint64) : PropId := .uint64Prop v

/-- `From<props::Matrix34> for sys::ETrackedDeviceProperty` (system.rs 373). -/
def props.Matrix34.toSys (v : props.Matrix34) : PropId := .matrix34Prop v

/-- `From<props::String> for sys::ETrackedDeviceProperty` (system.rs 374). -/
def props.String.toSys (v : props.String) : PropId := .stringProp v

/-- The Rust result types carrying a `TrackedDeviceProperty` impl
(system.rs lines 49–52, 56, 75). -/
inductive OutputTy
  | bool
  | f32
  | i32
  | u64
  | matrix3x4
  | cstring
  deriving DecidableEq, Repr

/-- The foreign accessor functions of `IVRSystem` used by the property
engine. -/
inductive Accessor
  | GetBoolTrackedDeviceProperty
  | GetFloatTrackedDeviceProperty
  | GetInt32TrackedDeviceProperty
  | GetUint64TrackedDeviceProperty
  | GetMatrix34TrackedDeviceProperty
  | GetStringTrackedDeviceProperty
  deriving DecidableEq, Repr

/-- Modelled from the spec: the value category each foreign accessor
retrieves (§4.2 pairs one fixed-size accessor with each category and the
string accessor with text). -/
def Accessor.category : Accessor → ValueCategory
  | .GetBoolTrackedDeviceProperty => .bool
  | .GetFloatTrackedDeviceProperty => .float
  | .GetInt32TrackedDeviceProperty => .int32
  | .GetUint64TrackedDeviceProperty => .uint64
  | .GetMatrix34TrackedDeviceProperty => .matrix34
  | .GetStringTrackedDeviceProperty => .str

/-- The foreign accessor `<T as TrackedDeviceProperty>::get` invokes: read
off the `impl_property_type!` invocations (system.rs lines 49–52) and the
manual `Matrix3x4` (lines 56–72) and `CString` (lines 75–105) impls. -/
def OutputTy.accessor : OutputTy → Accessor
  | .bool => .GetBoolTrackedDeviceProperty
  | .f32 => .GetFloatTrackedDeviceProperty
  | .i32 => .GetInt32TrackedDeviceProperty
  | .u64 => .GetUint64TrackedDeviceProperty
  | .matrix3x4 => .GetMatrix34TrackedDeviceProperty
  | .cstring => .GetStringTrackedDeviceProperty

/-- The value category of each result type, via its accessor. -/
def OutputTy.category (t : OutputTy) : ValueCategory := t.accessor.category

/-- The Rust types carrying a `TrackedDevicePropertyName` impl: the five
typed identifier sets and the raw `sys::ETrackedDeviceProperty` escape
hatch. -/
inductive PropNameTy
  | boolName
  | int32Name
  | uint64Name
  | matrix34Name
  | stringName
  | rawSys
  deriving DecidableEq, Repr

/-- The statically-known category of each identifier set; none for the raw
escape hatch. -/
def PropNameTy.category : PropNameTy → Option ValueCategory
  | .boolName => some .bool
  | .int32Name => some .int32
  | .uint64Name => some .uint64
  | .matrix34Name => some .matrix34
  | .stringName => some .str
  | .rawSys => none

/-- The complete table of `TrackedDevicePropertyName<T> for N` impls —
the pairs `(N, T)` for which `SystemManager::get_tracked_device_property`
(system.rs lines 389–398) is callable: the five `impl_property!` invocations
(system.rs lines 370–374) and the blanket impl for raw identifiers
(line 377). -/
def hasPropertyNameImpl : PropNameTy → OutputTy → Bool
  | .boolName, .bool => true
  | .int32Name, .i32 => true
  | .uint64Name, .u64 => true
  | .matrix34Name, .matrix3x4 => true
  | .stringName, .cstring => true
  | .rawSys, _ => true
  | _, _ => false

/-! ## Concrete foreign stubs used to evaluate the operations -/

/-- Stub: the probe reports 3 required bytes; the second call fills the
buffer with `[65, 0, 0]` (an interior nul before the final terminator). -/
def stubInteriorNul : IVRSystemString :=
  ⟨fun _ _ bufLen =>
    if bufLen = 0 then (3, TrackedProp_Success, [])
    else (3, TrackedProp_Success, [65, 0, 0])⟩

/-- Stub: well-behaved two-call protocol producing the bytes `[65, 0]`. -/
def stubWellFormed : IVRSystemString :=
  ⟨fun _ _ bufLen =>
    if bufLen = 0 then (2, TrackedProp_Success, [])
    else (2, TrackedProp_Success, [65, 0])⟩

/-- Stub: the probe call itself reports error code 5. -/
def stubProbeFails : IVRSystemString := ⟨fun _ _ _ => (0, 5, [])⟩

/-- Stub: the probe succeeds reporting 4 bytes, then the sized second call
reports `TrackedProp_BufferTooSmall`. -/
def stubBufferTooSmall : IVRSystemString :=
  ⟨fun _ _ bufLen =>
    if bufLen = 0 then (4, TrackedProp_Success, [])
    else (4, TrackedProp_BufferTooSmall, [])⟩

/-- Stub overlay whose setters always report success. -/
def stubOverlayOk : IVROverlayOps := ⟨fun _ _ => 0, fun _ _ => 0⟩

/-- Stub whose transform getter reports success but writes the reserved
invalid device index. -/
def stubTransformInvalidIndex : IVROverlayTransforms :=
  ⟨fun _ => (VROverlayError_None, k_unTrackedDeviceIndexInvalid, ⟨fun _ _ => 0⟩)⟩

/-- Stub input interface whose manifest call reports `InvalidParam`. -/
def stubInputInvalidParam : IVRInputOps := ⟨fun _ => VRInputError_InvalidParam⟩

/-- Stub applications interface whose manifest call reports
`InvalidParameter`. -/
def stubAppsInvalidParameter : IVRApplicationsOps :=
  ⟨fun _ _ => VRApplicationError_InvalidParameter⟩

/-! # Theorems -/

/-- C7: for each foreign error domain adapter (`EVRInitError`,
`EVROverlayError`, `ETrackedPropertyError`, `EVRInputError`) and every status
code `c`, `new c` returns `Ok (())` exactly when `c` is that domain's success
sentinel, and otherwise returns `Err` wrapping exactly `c`, recoverable
unchanged via `inner`.  The adapters are Lean functions, hence pure. -/
theorem error_adapters_translate_only_success_sentinel (c : Nat) :
    ((EVRInitError.new c = .ok () ↔ c = VRInitError_None) ∧
      (c ≠ VRInitError_None →
        EVRInitError.new c = .error ⟨c⟩ ∧ EVRInitError.inner ⟨c⟩ = c)) ∧
    ((EVROverlayError.new c = .ok () ↔ c = VROverlayError_None) ∧
      (c ≠ VROverlayError_None →
        EVROverlayError.new c = .error ⟨c⟩ ∧ EVROverlayError.inner ⟨c⟩ = c)) ∧
    ((ETrackedPropertyError.new c = .ok () ↔ c = TrackedProp_Success) ∧
      (c ≠ TrackedProp_Success →
        ETrackedPropertyError.new c = .error ⟨c⟩ ∧
          ETrackedPropertyError.inner ⟨c⟩ = c)) ∧
    ((EVRInputError.new c = .ok () ↔ c = VRInputError_None) ∧
      (c ≠ VRInputError_None →
        EVRInputError.new c = .error ⟨c⟩ ∧ EVRInputError.inner ⟨c⟩ = c)) := by
  by_cases h : c = 0 <;>
    simp [EVRInitError.new, EVROverlayError.new, ETrackedPropertyError.new,
      EVRInputError.new, EVRInitError.inner, EVROverlayError.inner,
      ETrackedPropertyError.inner, EVRInputError.inner, VRInitError_None,
      VROverlayError_None, TrackedProp_Success, VRInputError_None, h]

/-- Witness for C7 at the concrete codes 4 (failure) and 0 (success). -/
theorem error_adapters_translate_only_success_sentinel_witness :
    (EVRInitError.new 4 = .error ⟨4⟩ ∧ EVRInitError.inner ⟨4⟩ = 4) ∧
    EVROverlayError.new 0 = .ok () :=
  ⟨(error_adapters_translate_only_success_sentinel 4).1.2 (by decide),
    (error_adapters_translate_only_success_sentinel 0).2.1.1.mpr (by decide)⟩

/-- C8: `TrackedDeviceIndex::new` returns `Err` exactly on the reserved
invalid sentinel `k_unTrackedDeviceIndexInvalid`, and `Ok` wrapping the value
on every other input. -/
theorem tracked_device_index_new_rejects_only_sentinel (i : Nat) :
    (TrackedDeviceIndex.new i = .error () ↔ i = k_unTrackedDeviceIndexInvalid) ∧
    (i ≠ k_unTrackedDeviceIndexInvalid → TrackedDeviceIndex.new i = .ok ⟨i⟩) := by
  by_cases h : i = k_unTrackedDeviceIndexInvalid <;>
    simp [TrackedDeviceIndex.new, h]

/-- Witness for C8 at index 0 (accepted) and the sentinel (rejected). -/
theorem tracked_device_index_new_rejects_only_sentinel_witness :
    TrackedDeviceIndex.new 0 = .ok ⟨0⟩ ∧
    TrackedDeviceIndex.new 4294967295 = .error () :=
  ⟨(tracked_device_index_new_rejects_only_sentinel 0).2 (by decide),
    (tracked_device_index_new_rejects_only_sentinel 4294967295).1.mpr (by decide)⟩

/-- C1: the generic retrieval operation is callable for a typed identifier
set exactly with the output type of that set's value category (the raw
escape hatch alone is callable at every output type); converting a variant
of any of the five sets yields the same-named (injectively corresponding),
same-category foreign identifier; and the accessor the typed path dispatches
to retrieves exactly the identifier set's category. -/
theorem typed_property_engine_category_correct :
    (∀ (n : PropNameTy) (t : OutputTy),
        hasPropertyNameImpl n t = true ↔
          (n = .rawSys ∨ PropNameTy.category n = some (OutputTy.category t))) ∧
    ((∀ v : props.Bool,
        (props.Bool.toSys v).category = PropNameTy.category .boolName) ∧
      (∀ v : props.Int32,
        (props.Int32.toSys v).category = PropNameTy.category .int32Name) ∧
      (∀ v : props.Uint64,
        (props.Uint64.toSys v).category = PropNameTy.category .uint64Name) ∧
      (∀ v : props.Matrix34,
        (props.Matrix34.toSys v).category = PropNameTy.category .matrix34Name) ∧
      (∀ v : props.String,
        (props.String.toSys v).category = PropNameTy.category .stringName)) ∧
    (Function.Injective props.Bool.toSys ∧
      Function.Injective props.Int32.toSys ∧
      Function.Injective props.Uint64.toSys ∧
      Function.Injective props.Matrix34.toSys ∧
      Function.Injective props.String.toSys) ∧
    (∀ (n : PropNameTy) (t : OutputTy), hasPropertyNameImpl n t = true →
        n ≠ .rawSys →
        some (Accessor.category (OutputTy.accessor t)) = PropNameTy.category n) := by
  refine ⟨fun n t => by cases n <;> cases t <;> decide,
    ⟨fun v => rfl, fun v => rfl, fun v => rfl, fun v => rfl, fun v => rfl⟩,
    ⟨fun a b h => by simpa [props.Bool.toSys] using h,
      fun a b h => by simpa [props.Int32.toSys] using h,
      fun a b h => by simpa [props.Uint64.toSys] using h,
      fun a b h => by simpa [props.Matrix34.toSys] using h,
      fun a b h => by simpa [props.String.toSys] using h⟩,
    fun n t => by cases n <;> cases t <;> decide⟩

/-- Witness for C1 at the string identifier set and the `CString` output
type: the impl exists, and the dispatched accessor retrieves the text
category. -/
theorem typed_property_engine_category_correct_witness :
    some (Accessor.category (OutputTy.accessor .cstring)) =
      PropNameTy.category .stringName :=
  typed_property_engine_category_correct.2.2.2 .stringName .cstring
    (by decide) (by decide)

/-- `hasProperNulTerminator` characterized: the byte sequence ends with a nul
byte and has no nul byte before its final position. -/
theorem hasProperNulTerminator_iff (v : List Nat) :
    hasProperNulTerminator v = true ↔
      (v.getLast? = some 0 ∧ v.dropLast.contains 0 = false) := by
  induction v with
  | nil => simp [hasProperNulTerminator]
  | cons a t ih =>
    cases t with
    | nil => simp [hasProperNulTerminator, List.getLast?]
    | cons b u =>
      have hstep : hasProperNulTerminator (a :: b :: u) =
          (decide (a ≠ 0) && hasProperNulTerminator (b :: u)) := rfl
      have hdrop : (a :: b :: u).dropLast = a :: (b :: u).dropLast := rfl
      rw [hstep, hdrop, List.getLast?_cons_cons, Bool.and_eq_true,
        decide_eq_true_eq, ih]
      simp only [List.contains_cons, Bool.or_eq_false_iff, beq_eq_false_iff_ne]
      constructor
      · rintro ⟨ha, hl, hc⟩
        exact ⟨hl, Ne.symm ha, hc⟩
      · rintro ⟨hl, ha, hc⟩
        exact ⟨Ne.symm ha, hl, hc⟩

/-- C4: if the zero-length probe call reports a non-success code, the
operation returns exactly that error after a single foreign call — no buffer
allocation and no second foreign call appear in the trace. -/
theorem cstring_get_probe_error_short_circuits (sys : IVRSystemString)
    (index prop e : Nat)
    (h : (sys.GetStringTrackedDeviceProperty index prop 0).2.1 = e)
    (hne : e ≠ TrackedProp_Success) :
    cstringGet sys index prop = (.err ⟨e⟩, [.foreignCall 0]) := by
  simp [cstringGet, h, ETrackedPropertyError.new, hne]

/-- Witness for C4: a stub whose probe reports error code 5. -/
theorem cstring_get_probe_error_short_circuits_witness :
    cstringGet stubProbeFails 1 2 = (.err ⟨5⟩, [.foreignCall 0]) :=
  cstring_get_probe_error_short_circuits stubProbeFails 1 2 5 rfl (by decide)

/-- C2 (counterexample): with a stub whose two calls both report success and
whose second call fills the 3-byte buffer with `[65, 0, 0]`, the nul
terminator is present in the filled buffer — the buffer even ends with it —
yet the operation panics (interior nul) instead of returning `Ok`. -/
theorem cstring_get_panics_despite_terminator_present :
    (cstringGet stubInteriorNul 0 1000).1 =
      .panic "missing nul byte from openvr!" ∧
    writeBuffer 3 [65, 0, 0] = [65, 0, 0] ∧
    (writeBuffer 3 [65, 0, 0]).contains 0 = true ∧
    (writeBuffer 3 [65, 0, 0]).getLast? = some 0 := by decide

/-- C2 (amended): when both foreign calls report success, the operation
returns `Ok` with the filled buffer exactly when the buffer's first nul byte
is its final byte (it ends with the terminator and has no interior nul), and
the returned byte sequence then ends in the terminator; in every other case
— terminator absent, or a nul byte before the final position — it panics. -/
theorem cstring_get_ok_iff_proper_terminator (sys : IVRSystemString)
    (index prop : Nat) (data : List Nat)
    (h1 : (sys.GetStringTrackedDeviceProperty index prop 0).2.1 =
      TrackedProp_Success)
    (h2 : (sys.GetStringTrackedDeviceProperty index prop
        (sys.GetStringTrackedDeviceProperty index prop 0).1).2.1 =
      TrackedProp_Success)
    (hdata : data =
      writeBuffer (sys.GetStringTrackedDeviceProperty index prop 0).1
        (sys.GetStringTrackedDeviceProperty index prop
          (sys.GetStringTrackedDeviceProperty index prop 0).1).2.2) :
    ((cstringGet sys index prop).1 = .ok data ↔
      (data.getLast? = some 0 ∧ data.dropLast.contains 0 = false)) ∧
    (¬(data.getLast? = some 0 ∧ data.dropLast.contains 0 = false) →
      (cstringGet sys index prop).1 = .panic "missing nul byte from openvr!") := by
  have hkey : (cstringGet sys index prop).1 =
      (if hasProperNulTerminator data = true then CStringOutcome.ok data
        else CStringOutcome.panic "missing nul byte from openvr!") := by
    simp only [cstringGet, h1, h2, ETrackedPropertyError.new,
      cstringFromVecWithNul, ← hdata]
    by_cases hterm : hasProperNulTerminator data = true <;> simp [hterm]
  have hchar := hasProperNulTerminator_iff data
  constructor
  · rw [hkey]
    by_cases hterm : hasProperNulTerminator data = true
    · obtain ⟨hA, hB⟩ := hchar.mp hterm
      have hB' : 0 ∉ data.dropLast := by simpa using hB
      simp [hterm, hA, hB']
    · have hnot : ¬(data.getLast? = some 0 ∧ data.dropLast.contains 0 = false) :=
        fun hP => hterm (hchar.mpr hP)
      have hnot' : data.getLast? = some 0 → 0 ∈ data.dropLast := by
        intro hA
        by_contra hmem
        exact hnot ⟨hA, by simpa using hmem⟩
      simp only [hterm, if_false, Bool.false_eq_true]
      simp
      exact hnot'
  · intro hnot
    rw [hkey]
    have hterm : ¬hasProperNulTerminator data = true :=
      fun h => hnot (hchar.mp h)
    simp [hterm]

/-- Witness for the amended C2: a well-formed stub produces `Ok [65, 0]`. -/
theorem cstring_get_ok_iff_proper_terminator_witness :
    (cstringGet stubWellFormed 3 4).1 = .ok [65, 0] :=
  (cstring_get_ok_iff_proper_terminator stubWellFormed 3 4 [65, 0]
    (by decide) (by decide) (by decide)).1.mpr (by decide)

/-- C5 (counterexample): the second foreign call reports `BufferTooSmall`,
and the complete trace of the run is `[probe call, one allocation, sized
call]` with the error surfaced to the caller — there is no retried third
foreign call with a larger buffer. -/
theorem cstring_get_no_retry_on_buffer_too_small :
    cstringGet stubBufferTooSmall 2 1005 =
      (.err ⟨TrackedProp_BufferTooSmall⟩,
        [.foreignCall 0, .alloc 4, .foreignCall 4]) := by decide

/-- C5 (amended): every non-success error code reported by the second
foreign call — `BufferTooSmall` included — is returned to the caller
unchanged with no automatic retry: the trace ends at the second foreign
call. -/
theorem cstring_get_second_call_error_returned_without_retry
    (sys : IVRSystemString) (index prop e : Nat)
    (h1 : (sys.GetStringTrackedDeviceProperty index prop 0).2.1 =
      TrackedProp_Success)
    (h2 : (sys.GetStringTrackedDeviceProperty index prop
        (sys.GetStringTrackedDeviceProperty index prop 0).1).2.1 = e)
    (hne : e ≠ TrackedProp_Success) :
    cstringGet sys index prop =
      (.err ⟨e⟩,
        [.foreignCall 0,
          .alloc (sys.GetStringTrackedDeviceProperty index prop 0).1,
          .foreignCall (sys.GetStringTrackedDeviceProperty index prop 0).1]) := by
  simp [cstringGet, h1, h2, ETrackedPropertyError.new, hne]

/-- Witness for the amended C5, at the `BufferTooSmall` stub. -/
theorem cstring_get_second_call_error_returned_without_retry_witness :
    cstringGet stubBufferTooSmall 0 0 =
      (.err ⟨TrackedProp_BufferTooSmall⟩,
        [.foreignCall 0, .alloc 4, .foreignCall 4]) :=
  cstring_get_second_call_error_returned_without_retry stubBufferTooSmall 0 0
    TrackedProp_BufferTooSmall rfl rfl (by decide)

/-- C3 (code bug): `Context::init` reads the `INITIALIZED` guard but never
writes it, so the flag is unchanged by every call; in particular, after a
first successful init (foreign init reporting success), a second sequential
attempt also returns `Ok` — a second live `Context` — instead of
`Err(InitError::AlreadyInitialized)`. -/
theorem context_init_never_records_initialization :
    Context.init 0 false = (.ok (), false) ∧
    Context.init 0 (Context.init 0 false).2 = (.ok (), false) ∧
    (∀ (vrInitErr : Nat) (b : Bool), (Context.init vrInitErr b).2 = b) := by
  refine ⟨by decide, by decide, fun v b => ?_⟩
  cases b
  · unfold Context.init
    cases h : EVRInitError.new v <;> simp [h]
  · rfl

/-- C6 (code bug): the opacity setter enforces the `[0,1]` precondition
locally — the out-of-range argument 2 panics with an empty foreign-call
trace — but the curvature setter's range check is commented out in the
source, so the same out-of-range argument is forwarded to the foreign
`SetOverlayCurvature` and its mapped result returned, with no local panic,
contradicting the claim and `set_curvature`'s own panic documentation. -/
theorem set_curvature_missing_range_check :
    ¬((0 : ℚ) ≤ 2 ∧ (2 : ℚ) ≤ 1) ∧
    set_curvature stubOverlayOk 7 2 =
      (.result (.ok ()), [.setOverlayCurvature 7 2]) ∧
    set_opacity stubOverlayOk 7 2 =
      (.panic "`alpha` must be in range [0,1]", []) := by
  have hc : ¬((0 : ℚ) ≤ 2 ∧ (2 : ℚ) ≤ 1) := by norm_num
  exact ⟨hc, rfl, by simp [set_opacity, hc]⟩

/-- C9 (counterexample): for the path bytes `[47, 0, 97]` (interior nul),
`set_action_manifest` fails with an empty foreign-call trace, but the
failure it returns is the wrapped foreign `InvalidParam` status code — the
identical error value the raw path returns when the foreign runtime itself
reports that code — so the failure is not distinguishable as a local
precondition fault rather than a foreign error code; likewise
`add_application_manifest` returns the wrapped foreign `InvalidParameter`. -/
theorem manifest_interior_nul_error_equals_foreign_code :
    set_action_manifest stubInputInvalidParam [47, 0, 97] =
      (.error ⟨VRInputError_InvalidParam⟩, []) ∧
    set_action_manifest_raw stubInputInvalidParam [47, 97, 0] =
      (.error ⟨VRInputError_InvalidParam⟩, [[47, 97, 0]]) ∧
    (set_action_manifest stubInputInvalidParam [47, 0, 97]).1 =
      (set_action_manifest_raw stubInputInvalidParam [47, 97, 0]).1 ∧
    add_application_manifest stubAppsInvalidParameter [47, 0, 97] true =
      (.error ⟨VRApplicationError_InvalidParameter⟩, []) := by decide

/-- C9 (amended): a path containing a nul byte is rejected immediately —
the foreign-call trace is empty — but the failure returned is the domain's
foreign invalid-parameter error code wrapped in the domain's typed error,
not a separately distinguishable local fault. -/
theorem manifest_interior_nul_rejected_before_any_foreign_call
    (fi : IVRInputOps) (fa : IVRApplicationsOps) (path : List Nat)
    (temporary : Bool) (h : path.contains 0 = true) :
    set_action_manifest fi path = (.error ⟨VRInputError_InvalidParam⟩, []) ∧
    add_application_manifest fa path temporary =
      (.error ⟨VRApplicationError_InvalidParameter⟩, []) := by
  have h' : 0 ∈ path := by simpa using h
  constructor <;>
    simp [set_action_manifest, add_application_manifest, cstringNew, h',
      EVRInputError.new, EVRApplicationError.new, VRInputError_None,
      VRApplicationError_None, VRInputError_InvalidParam,
      VRApplicationError_InvalidParameter]

/-- Witness for the amended C9 at the path `[0]`. -/
theorem manifest_interior_nul_rejected_before_any_foreign_call_witness :
    set_action_manifest stubInputInvalidParam [0] =
      (.error ⟨VRInputError_InvalidParam⟩, []) ∧
    add_application_manifest stubAppsInvalidParameter [0] false =
      (.error ⟨VRApplicationError_InvalidParameter⟩, []) :=
  manifest_interior_nul_rejected_before_any_foreign_call stubInputInvalidParam
    stubAppsInvalidParameter [0] false (by decide)

/-- C10: `get_transform_tracked_device_relative` never returns success
carrying the reserved invalid index: when the foreign call reports success
but writes the invalid sentinel as the device index, the operation returns
`Err(VROverlayError_RequestFailed)`. -/
theorem get_transform_never_returns_invalid_index (fo : IVROverlayTransforms)
    (overlay : Nat) :
    (((fo.GetOverlayTransformTrackedDeviceRelative overlay).1 =
          VROverlayError_None ∧
        (fo.GetOverlayTransformTrackedDeviceRelative overlay).2.1 =
          k_unTrackedDeviceIndexInvalid) →
      get_transform_tracked_device_relative fo overlay =
        .result (.error ⟨VROverlayError_RequestFailed⟩)) ∧
    (∀ idx, get_transform_tracked_device_relative fo overlay =
        .result (.ok idx) →
      idx.val ≠ k_unTrackedDeviceIndexInvalid) := by
  constructor
  · rintro ⟨hok, hinv⟩
    simp [get_transform_tracked_device_relative, hok, hinv,
      EVROverlayError.new, TrackedDeviceIndex.new, VROverlayError_None,
      VROverlayError_RequestFailed]
  · intro idx h
    unfold get_transform_tracked_device_relative at h
    by_cases hok :
        (fo.GetOverlayTransformTrackedDeviceRelative overlay).1 =
          VROverlayError_None
    · by_cases hinv :
          (fo.GetOverlayTransformTrackedDeviceRelative overlay).2.1 =
            k_unTrackedDeviceIndexInvalid
      · simp [EVROverlayError.new, TrackedDeviceIndex.new, hok, hinv,
          VROverlayError_None, VROverlayError_RequestFailed] at h
      · simp [EVROverlayError.new, TrackedDeviceIndex.new, hok, hinv,
          VROverlayError_None] at h
        rw [← h]
        exact hinv
    · simp only [EVROverlayError.new] at h
      rw [if_neg hok] at h
      simp at h

/-- Witness for C10: a stub reporting success with the invalid sentinel. -/
theorem get_transform_never_returns_invalid_index_witness :
    get_transform_tracked_device_relative stubTransformInvalidIndex 5 =
      .result (.error ⟨VROverlayError_RequestFailed⟩) :=
  (get_transform_never_returns_invalid_index stubTransformInvalidIndex 5).1
    ⟨rfl, rfl⟩

end OvrOverlay
